import Mathlib

/-!
Verification development for the kvserver Raft replication core.

The repository ships the Raft node declaration (`src/raftCore/include/raft.h`),
a Boost-serialized persistence record (`BoostPersistRaftNode`, raft.h lines
178-200), and a client workload generator (`example/raftCoreExample/caller.cpp`).
The bodies of the Raft member functions (raft.cpp) are not part of the source
tree, so those operations are modelled from the specification text (spec.md,
sections 3, 4.1-4.3, 4.5); each such definition says so in its doc comment.
The persistence record serializer and the client workload are translated
directly from the source.

Conventions: C++ `int` is modelled as `Int`; byte strings as `List Int`;
the sentinel value NONE (`-1` in the code) marks "no vote" / "no term".
The log is kept as the entries strictly after the snapshot boundary; the
sentinel entry the spec places at `log[0]` is represented by the pair
`(lastSnapshotIncludeTerm, lastSnapshotIncludeIndex)`.
Side effects that matter to the claims (persisting, resetting the election
timer, writing state+snapshot) are modelled as boolean fields of each
operation's result.
-/

namespace KVRaft

/-- `-1`, the code's marker for "no vote" (`m_votedFor`) and "no such term". -/
def NONE : Int := -1

/-- Network-state constant from raft.h line 23. -/
def Disconnected : Int := 0

/-- Network-state constant from raft.h line 25. -/
def AppNormal : Int := 1

/-- Vote-state constant from raft.h line 29. -/
def Killed : Int := 0

/-- Vote-state constant from raft.h line 30. -/
def Voted : Int := 1

/-- Vote-state constant from raft.h line 31. -/
def Expire : Int := 2

/-- Vote-state constant from raft.h line 32. -/
def Normal : Int := 3

/-- A log entry `(term, index, command_bytes)` (spec section 3; raft.h `m_logs`). -/
structure LogEntry where
  term : Int
  index : Int
  command : List Int
deriving DecidableEq

/-- Node role (raft.h line 51, `enum Status`). -/
inductive Status where
  | Follower
  | Candidate
  | Leader
deriving DecidableEq

/-- The per-node Raft state (raft.h lines 39-66, spec section 3).
`logs` holds the entries strictly after the snapshot boundary. -/
structure RaftState where
  me : Int
  currentTerm : Int
  votedFor : Int
  logs : List LogEntry
  commitIndex : Int
  lastApplied : Int
  nextIndex : List Int
  matchIndex : List Int
  status : Status
  lastSnapshotIncludeIndex : Int
  lastSnapshotIncludeTerm : Int
deriving DecidableEq

/-- Modelled from the spec: global index of the last log entry
(`getLastLogIndex`, declared raft.h line 128; spec section 3, indices are
dense starting right after the snapshot boundary). -/
def getLastLogIndex (s : RaftState) : Int :=
  s.lastSnapshotIncludeIndex + s.logs.length

/-- Modelled from the spec: term of the last log entry, falling back to the
snapshot boundary term (`getLastLogTerm`, declared raft.h line 129). -/
def getLastLogTerm (s : RaftState) : Int :=
  match s.logs.getLast? with
  | some e => e.term
  | none => s.lastSnapshotIncludeTerm

/-- Modelled from the spec: local array position of global index `logIndex`
(`getSlicesIndexFromLogIndex`, declared raft.h line 139; spec section 4.1
index translation). -/
def getSlicesIndexFromLogIndex (s : RaftState) (logIndex : Int) : Nat :=
  (logIndex - s.lastSnapshotIncludeIndex - 1).toNat

/-- Modelled from the spec: the term recorded at global index `logIndex`,
`none` when the node no longer (or does not yet) hold that index. The
snapshot boundary itself carries `lastSnapshotIncludeTerm` (spec invariant L3). -/
def termAt (s : RaftState) (logIndex : Int) : Option Int :=
  if logIndex = s.lastSnapshotIncludeIndex then
    some s.lastSnapshotIncludeTerm
  else if s.lastSnapshotIncludeIndex < logIndex ∧ logIndex ≤ getLastLogIndex s then
    (s.logs.get? (getSlicesIndexFromLogIndex s logIndex)).map LogEntry.term
  else
    none

/-- Modelled from the spec: total version of `termAt`
(`getLogTermFromLogIndex`, declared raft.h line 134), `NONE` when absent. -/
def getLogTermFromLogIndex (s : RaftState) (logIndex : Int) : Int :=
  (termAt s logIndex).getD NONE

/-- Modelled from the spec: does the node hold an entry `(logTerm, logIndex)`?
(`matchLog`, declared raft.h line 122). -/
def matchLog (s : RaftState) (logIndex logTerm : Int) : Bool :=
  decide (termAt s logIndex = some logTerm)

/-- Modelled from the spec: smallest global index whose entry carries term `t`
(used for the AppendEntries conflict hint, spec section 4.3). -/
def firstIndexWithTerm (s : RaftState) (t : Int) : Option Int :=
  match s.logs.findIdx? (fun e => e.term == t) with
  | some k => some (s.lastSnapshotIncludeIndex + (k : Int) + 1)
  | none => none

/-- Modelled from the spec: the Raft "up-to-date" comparison
(`UpToDate`, declared raft.h line 127; spec section 4.2): candidate last log
term strictly greater, or equal terms and candidate last log index at least
ours. -/
def UpToDate (s : RaftState) (index term : Int) : Bool :=
  decide (getLastLogTerm s < term ∨ (term = getLastLogTerm s ∧ getLastLogIndex s ≤ index))

/-- Insert into an ascending-sorted list of integers. -/
def insertSorted (x : Int) : List Int → List Int
  | [] => [x]
  | y :: ys => if x ≤ y then x :: y :: ys else y :: insertSorted x ys

/-- Ascending insertion sort on integers. -/
def sortInts : List Int → List Int
  | [] => []
  | x :: xs => insertSorted x (sortInts xs)

/-- Modelled from the spec: the median element `M[⌊N/2⌋]` of
`M = sort({matchIndex[p] for p in peers} ∪ {lastLogIndex(self)})`
(spec section 4.3, leader commit advancement). -/
def medianMatchIndex (s : RaftState) : Int :=
  let M := sortInts (s.matchIndex ++ [getLastLogIndex s])
  M.getD (M.length / 2) 0

/-- Modelled from the spec: leader commit advancement
(`leaderUpdateCommitIndex`, declared raft.h line 120): advance `commitIndex`
to the sorted median of the replication indices only when the entry there is
from the current term (spec section 4.3, Figure 8 constraint). -/
def leaderUpdateCommitIndex (s : RaftState) : RaftState :=
  if s.status = Status.Leader then
    let median := medianMatchIndex s
    if getLogTermFromLogIndex s median = s.currentTerm then
      { s with commitIndex := median }
    else s
  else s

/-- RequestVote RPC arguments (spec section 6). -/
structure RequestVoteArgs where
  term : Int
  candidateId : Int
  lastLogIndex : Int
  lastLogTerm : Int
deriving DecidableEq

/-- RequestVote RPC reply (spec section 6); `voteState` is advisory. -/
structure RequestVoteReply where
  term : Int
  voteGranted : Bool
  voteState : Int
deriving DecidableEq

/-- Result of handling a RequestVote RPC: the reply, the successor state, and
whether the handler persisted state / reset the election timer. -/
structure RVResult where
  reply : RequestVoteReply
  state : RaftState
  persisted : Bool
  resetElectionTimer : Bool
deriving DecidableEq

/-- Modelled from the spec: the universal higher-term rule (spec section 4.1,
role transitions): on seeing a term above `currentTerm`, adopt it, clear
`votedFor`, and become Follower. -/
def stepDownIfHigher (s : RaftState) (t : Int) : RaftState :=
  if s.currentTerm < t then
    { s with currentTerm := t, votedFor := NONE, status := Status.Follower }
  else s

/-- Modelled from the spec: the RequestVote handler
(`RequestVote`, declared raft.h line 125; spec sections 4.1 and 4.2).
A stale term is refused outright; a higher term first triggers the step-down
rule (which clears `votedFor`); then the vote is granted exactly when
`votedFor` is free or already this candidate and the candidate's log is
up-to-date, persisting and resetting the election timer on grant. A refusal
after a step-down still persists and resets the timer, because the step-down
rule itself does (spec section 4.1). -/
def RequestVote (s : RaftState) (a : RequestVoteArgs) : RVResult :=
  if a.term < s.currentTerm then
    ⟨⟨s.currentTerm, false, Expire⟩, s, false, false⟩
  else
    let s1 := stepDownIfHigher s a.term
    if (s1.votedFor = NONE ∨ s1.votedFor = a.candidateId) ∧
        UpToDate s a.lastLogIndex a.lastLogTerm = true then
      ⟨⟨s1.currentTerm, true, Normal⟩, { s1 with votedFor := a.candidateId }, true, true⟩
    else
      ⟨⟨s1.currentTerm, false, Voted⟩, s1,
        decide (s.currentTerm < a.term), decide (s.currentTerm < a.term)⟩

/-- AppendEntries RPC arguments (spec section 6). -/
structure AppendEntriesArgs where
  term : Int
  leaderId : Int
  prevLogIndex : Int
  prevLogTerm : Int
  entries : List LogEntry
  leaderCommit : Int
deriving DecidableEq

/-- AppendEntries RPC reply (spec section 6); `appState` is advisory. -/
structure AppendEntriesReply where
  term : Int
  success : Bool
  conflictTerm : Int
  conflictIndex : Int
  appState : Int
deriving DecidableEq

/-- Result of handling an AppendEntries RPC. -/
structure AEResult where
  reply : AppendEntriesReply
  state : RaftState
  persisted : Bool
  resetElectionTimer : Bool
deriving DecidableEq

/-- Modelled from the spec: walk the suffix of the local log (starting at the
position right after `prevLogIndex`) against the incoming entries: an existing
entry whose term differs is the truncation point, from which the remaining
incoming entries replace the suffix; matching entries are kept; incoming
entries beyond the local log are appended (spec section 4.3, follower
AppendEntries policy). -/
def mergeEntries : List LogEntry → List LogEntry → List LogEntry
  | kept, [] => kept
  | [], incoming => incoming
  | e :: kept, f :: incoming =>
    if e.term = f.term then e :: mergeEntries kept incoming
    else f :: incoming

/-- Modelled from the spec: the follower's new log after accepting an
AppendEntries request: the local entries up to `prevLogIndex` are kept, the
rest merged with the incoming entries. -/
def truncatedMerge (s : RaftState) (a : AppendEntriesArgs) : List LogEntry :=
  let keepCount := (a.prevLogIndex - s.lastSnapshotIncludeIndex).toNat
  s.logs.take keepCount ++ mergeEntries (s.logs.drop keepCount) a.entries

/-- Modelled from the spec: the follower AppendEntries handler
(`AppendEntries1`, declared raft.h line 73; spec section 4.3, follower policy):
reject a stale term with no state change; otherwise step down, become
Follower and reset the election timer; a `prevLogIndex` below the snapshot
boundary is refused with a hint forcing the leader to catch up to the
boundary; a missing or term-mismatched `prevLogIndex` is refused with the
conflict hint `(conflictTerm, conflictIndex)`; otherwise the log suffix is
repaired, the entries appended, state persisted, and
`commitIndex = min(leaderCommit, index of last new entry)`. -/
def AppendEntries1 (s : RaftState) (a : AppendEntriesArgs) : AEResult :=
  if a.term < s.currentTerm then
    ⟨⟨s.currentTerm, false, NONE, NONE, AppNormal⟩, s, false, false⟩
  else
    let s1 := { stepDownIfHigher s a.term with status := Status.Follower }
    if a.prevLogIndex < s.lastSnapshotIncludeIndex then
      ⟨⟨s1.currentTerm, false, NONE, s.lastSnapshotIncludeIndex + 1, AppNormal⟩, s1,
        decide (s.currentTerm < a.term), true⟩
    else if getLastLogIndex s < a.prevLogIndex ∨ termAt s a.prevLogIndex ≠ some a.prevLogTerm then
      let ct := getLogTermFromLogIndex s a.prevLogIndex
      ⟨⟨s1.currentTerm, false, ct, (firstIndexWithTerm s ct).getD (getLastLogIndex s + 1),
          AppNormal⟩, s1, decide (s.currentTerm < a.term), true⟩
    else
      let s2 := { s1 with
        logs := truncatedMerge s a
        commitIndex := min a.leaderCommit (a.prevLogIndex + (a.entries.length : Int)) }
      ⟨⟨s1.currentTerm, true, NONE, NONE, AppNormal⟩, s2, true, true⟩

/-- Result of `CondInstallSnapshot`: the returned boolean, the successor
state, and whether state was persisted. -/
structure CISResult where
  accepted : Bool
  state : RaftState
  persisted : Bool
deriving DecidableEq

/-- Modelled from the spec: `CondInstallSnapshot(lastTerm, lastIndex, blob)`
(declared raft.h line 87; spec section 4.1): reject unless
`lastIndex > commitIndex`; on accept discard the log prefix up to `lastIndex`
(the whole log when no entry matches `(lastTerm, lastIndex)`), adopt the
snapshot boundary, set `commitIndex = lastApplied = lastIndex`, persist and
return true. The opaque blob does not influence the raft state. -/
def CondInstallSnapshot (s : RaftState) (lastIncludedTerm lastIncludedIndex : Int) : CISResult :=
  if lastIncludedIndex ≤ s.commitIndex then
    ⟨false, s, false⟩
  else
    let newLogs :=
      if matchLog s lastIncludedIndex lastIncludedTerm = true then
        s.logs.drop (lastIncludedIndex - s.lastSnapshotIncludeIndex).toNat
      else []
    ⟨true, { s with
      logs := newLogs
      lastSnapshotIncludeIndex := lastIncludedIndex
      lastSnapshotIncludeTerm := lastIncludedTerm
      commitIndex := lastIncludedIndex
      lastApplied := lastIncludedIndex }, true⟩

/-- Result of `Start`: the values returned through the out parameters, the
successor state, and whether state was persisted. -/
structure StartResult where
  newLogIndex : Int
  newLogTerm : Int
  isLeader : Bool
  state : RaftState
  persisted : Bool
deriving DecidableEq

/-- Modelled from the spec: `Start(command)` (declared raft.h line 152; spec
section 4.1): a non-leader answers `isLeader=false` with index `-1` and
changes nothing; a leader appends `(currentTerm, lastLogIndex+1, command)`,
persists, and returns the assigned index and term immediately. -/
def Start (s : RaftState) (command : List Int) : StartResult :=
  if s.status = Status.Leader then
    let idx := getLastLogIndex s + 1
    ⟨idx, s.currentTerm, true,
      { s with
        logs := s.logs ++ [⟨s.currentTerm, idx, command⟩] }, true⟩
  else
    ⟨-1, -1, false, s, false⟩

/-- Result of `Snapshot`: the successor state and whether state plus snapshot
were written atomically. -/
structure SnapshotResult where
  state : RaftState
  savedStateAndSnapshot : Bool
deriving DecidableEq

/-- Modelled from the spec: `Snapshot(index, blob)` (declared raft.h line 158;
spec section 4.1): ignored when `index ≤ lastSnapshotIncludeIndex`; otherwise
the log is truncated so the sentinel becomes `(term_of(index), index)` and
state plus snapshot are written atomically. The opaque blob does not
influence the raft state. -/
def Snapshot (s : RaftState) (index : Int) : SnapshotResult :=
  if index ≤ s.lastSnapshotIncludeIndex then
    ⟨s, false⟩
  else
    ⟨{ s with
      logs := s.logs.drop (index - s.lastSnapshotIncludeIndex).toNat
      lastSnapshotIncludeIndex := index
      lastSnapshotIncludeTerm := getLogTermFromLogIndex s index }, true⟩

/-- InstallSnapshot RPC arguments (spec section 6); the blob is opaque. -/
structure InstallSnapshotArgs where
  term : Int
  leaderId : Int
  lastIncludedIndex : Int
  lastIncludedTerm : Int
deriving DecidableEq

/-- Result of handling an InstallSnapshot RPC. -/
structure ISResult where
  replyTerm : Int
  state : RaftState
  persisted : Bool
  resetElectionTimer : Bool
deriving DecidableEq

/-- Modelled from the spec: the InstallSnapshot handler (declared raft.h line
113; spec sections 4.1 and 6): reply with the current term; a stale term
changes nothing; otherwise apply the higher-term rule, stay Follower and
reset the election timer. The snapshot body is handed to the apply channel
and installed later through `CondInstallSnapshot`, modelled separately. -/
def InstallSnapshot (s : RaftState) (a : InstallSnapshotArgs) : ISResult :=
  if a.term < s.currentTerm then
    ⟨s.currentTerm, s, false, false⟩
  else
    let s1 := { stepDownIfHigher s a.term with status := Status.Follower }
    ⟨s1.currentTerm, s1, decide (s.currentTerm < a.term), true⟩

/-- Modelled from the spec: starting an election (`doElection`, declared
raft.h line 90; spec section 4.1): become Candidate, advance the term, vote
for self, persist, reset the election timer. -/
def doElection (s : RaftState) : RaftState :=
  { s with
    status := Status.Candidate
    currentTerm := s.currentTerm + 1
    votedFor := s.me }

/-- The persisted tuple (spec sections 3 and 4.5):
`(currentTerm, votedFor, lastSnapshotIncludeIndex, lastSnapshotIncludeTerm, log[])`. -/
structure PersistentState where
  currentTerm : Int
  votedFor : Int
  lastSnapshotIncludeIndex : Int
  lastSnapshotIncludeTerm : Int
  logs : List LogEntry
deriving DecidableEq

/-- Modelled from the spec: serialization of one log entry
`(term, index, command_bytes)` with the command length-prefixed
(spec section 4.5, serialization format). -/
def encodeEntry (e : LogEntry) : List Int :=
  e.term :: e.index :: (e.command.length : Int) :: e.command

/-- Serialization of a list of log entries, concatenated in order. -/
def encodeEntries : List LogEntry → List Int
  | [] => []
  | e :: es => encodeEntry e ++ encodeEntries es

/-- Modelled from the spec: `persistData` (declared raft.h line 150; spec
section 4.5): the length-prefixed record of
`(currentTerm, votedFor, lastSnapshotIncludeIndex, lastSnapshotIncludeTerm, log[])`. -/
def persistData (p : PersistentState) : List Int :=
  p.currentTerm :: p.votedFor :: p.lastSnapshotIncludeIndex ::
  p.lastSnapshotIncludeTerm :: (p.logs.length : Int) :: encodeEntries p.logs

/-- Consume `n` byte tokens from the stream, if available. -/
def decodeCommand (n : Nat) (ts : List Int) : Option (List Int × List Int) :=
  if n ≤ ts.length then some (ts.take n, ts.drop n) else none

/-- Parse one serialized log entry off the stream. -/
def decodeEntry (ts : List Int) : Option (LogEntry × List Int) :=
  match ts with
  | t :: i :: len :: rest =>
    match decodeCommand len.toNat rest with
    | some (cmd, rest2) => some (⟨t, i, cmd⟩, rest2)
    | none => none
  | _ => none

/-- Parse `n` serialized log entries off the stream. -/
def decodeEntries : Nat → List Int → Option (List LogEntry × List Int)
  | 0, ts => some ([], ts)
  | n + 1, ts =>
    match decodeEntry ts with
    | some (e, ts2) =>
      match decodeEntries n ts2 with
      | some (es, ts3) => some (e :: es, ts3)
      | none => none
    | none => none

/-- Modelled from the spec: `readPersist` (declared raft.h line 149; spec
section 4.5): parse the persisted record back into the five fields, `none`
on a malformed stream. -/
def readPersist (ts : List Int) : Option PersistentState :=
  match ts with
  | ct :: vf :: si :: st :: n :: rest =>
    match decodeEntries n.toNat rest with
    | some (logs, []) => some ⟨ct, vf, si, st, logs⟩
    | _ => none
  | _ => none

/-- The persisted projection of a node's state (spec section 3, persistent
state). -/
def extractPersist (s : RaftState) : PersistentState :=
  ⟨s.currentTerm, s.votedFor, s.lastSnapshotIncludeIndex, s.lastSnapshotIncludeTerm, s.logs⟩

/-- One operation a node can execute (the operations named by the spec:
RPC handling, elections, Start, snapshotting, commit advancement, crash
recovery). -/
inductive NodeOp where
  | rpcRequestVote (a : RequestVoteArgs)
  | rpcAppendEntries (a : AppendEntriesArgs)
  | rpcInstallSnapshot (a : InstallSnapshotArgs)
  | opCondInstallSnapshot (lastIncludedTerm lastIncludedIndex : Int)
  | opStart (command : List Int)
  | opSnapshot (index : Int)
  | opLeaderUpdateCommitIndex
  | opDoElection
  | opRecover

/-- A node together with its durable storage (spec section 4.5):
the volatile state and the last persisted tuple. -/
structure World where
  node : RaftState
  durable : PersistentState
deriving DecidableEq

/-- Modelled from the spec: crash recovery (`init`/`readPersist`, spec
section 3): the five persisted fields are rehydrated, `commitIndex` and
`lastApplied` restart at the snapshot boundary, the role restarts at
Follower. -/
def rehydrate (s : RaftState) (p : PersistentState) : RaftState :=
  { s with
    currentTerm := p.currentTerm
    votedFor := p.votedFor
    logs := p.logs
    lastSnapshotIncludeIndex := p.lastSnapshotIncludeIndex
    lastSnapshotIncludeTerm := p.lastSnapshotIncludeTerm
    commitIndex := p.lastSnapshotIncludeIndex
    lastApplied := p.lastSnapshotIncludeIndex
    status := Status.Follower }

/-- Apply one operation to the volatile state alone, returning the successor
state and whether the operation persisted state. -/
def stepOp (op : NodeOp) (s : RaftState) : RaftState × Bool :=
  match op with
  | .rpcRequestVote a => ((RequestVote s a).state, (RequestVote s a).persisted)
  | .rpcAppendEntries a => ((AppendEntries1 s a).state, (AppendEntries1 s a).persisted)
  | .rpcInstallSnapshot a => ((InstallSnapshot s a).state, (InstallSnapshot s a).persisted)
  | .opCondInstallSnapshot t i =>
    ((CondInstallSnapshot s t i).state, (CondInstallSnapshot s t i).persisted)
  | .opStart c => ((Start s c).state, (Start s c).persisted)
  | .opSnapshot i => ((Snapshot s i).state, (Snapshot s i).savedStateAndSnapshot)
  | .opLeaderUpdateCommitIndex => (leaderUpdateCommitIndex s, false)
  | .opDoElection => (doElection s, true)
  | .opRecover => (s, false)

/-- Install an operation's outcome into the world: the node takes the new
state, and durable storage is overwritten exactly when the operation
persisted. -/
def commitDurable (w : World) (r : RaftState × Bool) : World :=
  ⟨r.1, if r.2 then extractPersist r.1 else w.durable⟩

/-- Apply one operation to a world: recovery rehydrates from durable storage;
every other operation runs on the node and, when it persists, writes the
node's persistent fields through to durable storage. -/
def stepWorld (op : NodeOp) (w : World) : World :=
  match op with
  | .opRecover => ⟨rehydrate w.node w.durable, w.durable⟩
  | _ => commitDurable w (stepOp op w.node)

/-- Run a sequence of operations on a world. -/
def runOps (ops : List NodeOp) (w : World) : World :=
  ops.foldl (fun acc op => stepWorld op acc) w

/-- Client operation type from caller.cpp line 49:
`enum OpType { PUT, GET, DELETE }`. -/
inductive OpType where
  | PUT
  | GET
  | DELETE
deriving DecidableEq

/-- A Clerk operation issued by the workload (caller.cpp: `client.Put`,
`client.Get`). -/
inductive ClerkCall where
  | put (key value : List Int)
  | get (key : List Int)
deriving DecidableEq

/-- `kMaxRetries` from caller.cpp line 16. -/
def kMaxRetries : Nat := 3

/-- The Clerk calls the `switch` of `executeOp` (caller.cpp lines 57-69)
issues for one attempt: PUT calls `Put`, GET calls `Get`, DELETE has no case
and issues nothing. -/
def switchCalls (op : OpType) (key value : List Int) : List ClerkCall :=
  match op with
  | .PUT => [.put key value]
  | .GET => [.get key]
  | .DELETE => []

/-- Observable outcome of `executeOp`: the returned boolean, the number of
loop iterations executed, and the Clerk calls attempted. -/
structure ExecResult where
  ok : Bool
  iterationsUsed : Nat
  calls : List ClerkCall
deriving DecidableEq

/-- The retry loop of `executeOp` (caller.cpp lines 54-81): on each iteration
the switch runs; DELETE has no case, so nothing is attempted, no exception
can arise, and the function returns true; PUT/GET attempt their Clerk call
and retry (up to the fuel) when the attempt throws, as told by the `throws`
oracle indexed by iteration number. -/
def executeOpLoop (op : OpType) (key value : List Int) (throws : Nat → Bool) :
    Nat → Nat → List ClerkCall → ExecResult
  | 0, iter, acc => ⟨false, iter, acc⟩
  | fuel + 1, iter, acc =>
    match op with
    | .DELETE => ⟨true, iter + 1, acc⟩
    | _ =>
      let acc2 := acc ++ switchCalls op key value
      if throws iter then executeOpLoop op key value throws fuel (iter + 1) acc2
      else ⟨true, iter + 1, acc2⟩

/-- `executeOp` (caller.cpp lines 52-84): run the retry loop with
`kMaxRetries` attempts. `opId` is only used for logging and does not affect
the outcome. -/
def executeOp (op : OpType) (key value : List Int) (opId : Nat) (throws : Nat → Bool) :
    ExecResult :=
  executeOpLoop op key value throws kMaxRetries 0 []

/-- The draw `static_cast<OpType>(opDist(rng))` of `userTask`
(caller.cpp lines 91-95) with `opDist(0, 2)`: 0 is PUT, 1 is GET, 2 is
DELETE, uniform over the three values. -/
def drawOp (r : Fin 3) : OpType :=
  if r.val = 0 then OpType.PUT
  else if r.val = 1 then OpType.GET
  else OpType.DELETE

/-- `Raft::BoostPersistRaftNode` (raft.h lines 178-200): the five serialized
fields plus the extra `umap` member, which `serialize` never touches.
Strings are modelled as byte lists, the unordered map as an association
list. -/
structure BoostPersistRaftNode where
  m_currentTerm : Int
  m_votedFor : Int
  m_lastSnapshotIncludeIndex : Int
  m_lastSnapshotIncludeTerm : Int
  m_logs : List (List Int)
  umap : List (List Int × Int)
deriving DecidableEq

/-- Boost archive encoding of one `std::string`: length then bytes. -/
def encodeBytes (s : List Int) : List Int :=
  (s.length : Int) :: s

/-- Boost archive encoding of a `std::vector<std::string>` body. -/
def encodeStringVec : List (List Int) → List Int
  | [] => []
  | s :: rest => encodeBytes s ++ encodeStringVec rest

/-- `BoostPersistRaftNode::serialize` (raft.h lines 184-191): the archive
receives, in order, `m_currentTerm`, `m_votedFor`,
`m_lastSnapshotIncludeIndex`, `m_lastSnapshotIncludeTerm`, `m_logs`
(the vector length-prefixed). No other member is written. -/
def serializeBoostNode (n : BoostPersistRaftNode) : List Int :=
  n.m_currentTerm :: n.m_votedFor :: n.m_lastSnapshotIncludeIndex ::
  n.m_lastSnapshotIncludeTerm :: (n.m_logs.length : Int) :: encodeStringVec n.m_logs

/-- Claim C2 exactly as stated: the vote is granted if and only if
`args.term ≥ currentTerm`, the handler-entry `votedFor` is NONE or the
candidate, and the candidate's log is up-to-date; every grant persists and
resets the election timer. -/
def requestVoteClaim (s : RaftState) (a : RequestVoteArgs) : Prop :=
  ((RequestVote s a).reply.voteGranted = true ↔
    (s.currentTerm ≤ a.term ∧
     (s.votedFor = NONE ∨ s.votedFor = a.candidateId) ∧
     UpToDate s a.lastLogIndex a.lastLogTerm = true)) ∧
  ((RequestVote s a).reply.voteGranted = true →
    (RequestVote s a).persisted = true ∧ (RequestVote s a).resetElectionTimer = true)

/-- Claim C3 exactly as stated: stale term is refused with no state change;
a missing or mismatched `prevLogIndex` yields the conflict hint
`(term at prevLogIndex if present else NONE, first index with that term else
lastLogIndex+1)`; otherwise the suffix is repaired, entries appended, state
persisted, and `commitIndex = min(leaderCommit, index of last new entry)`. -/
def appendEntriesClaim (s : RaftState) (a : AppendEntriesArgs) : Prop :=
  (a.term < s.currentTerm →
    (AppendEntries1 s a).reply.term = s.currentTerm ∧
    (AppendEntries1 s a).reply.success = false ∧
    (AppendEntries1 s a).state = s) ∧
  (s.currentTerm ≤ a.term →
    ((getLastLogIndex s < a.prevLogIndex ∨ termAt s a.prevLogIndex ≠ some a.prevLogTerm) →
      (AppendEntries1 s a).reply.success = false ∧
      (AppendEntries1 s a).reply.conflictTerm = getLogTermFromLogIndex s a.prevLogIndex ∧
      (AppendEntries1 s a).reply.conflictIndex =
        (firstIndexWithTerm s (getLogTermFromLogIndex s a.prevLogIndex)).getD
          (getLastLogIndex s + 1)) ∧
    (¬ (getLastLogIndex s < a.prevLogIndex ∨ termAt s a.prevLogIndex ≠ some a.prevLogTerm) →
      (AppendEntries1 s a).state.logs = truncatedMerge s a ∧
      (AppendEntries1 s a).persisted = true ∧
      (AppendEntries1 s a).state.commitIndex =
        min a.leaderCommit (a.prevLogIndex + (a.entries.length : Int))))

/-- A freshly initialized node (spec section 3 initial values). -/
def baseState : RaftState :=
  ⟨0, 0, NONE, [], 0, 0, [], [], Status.Follower, 0, 0⟩

/-- A three-node leader at term 1 holding one entry of its own term, with
peer match indices 1 and 0. -/
def c1State : RaftState :=
  { baseState with
    status := Status.Leader
    currentTerm := 1
    logs := [⟨1, 1, []⟩]
    matchIndex := [1, 0] }

/-- A follower at term 1 that has already voted for peer 0. -/
def rvCexState : RaftState :=
  { baseState with
    currentTerm := 1
    votedFor := 0 }

/-- A higher-term RequestVote from candidate 2 with an up-to-date log. -/
def rvCexArgs : RequestVoteArgs :=
  ⟨2, 2, 0, 0⟩

/-- A follower whose snapshot boundary is `(index 5, term 1)` with two live
entries at indices 6 and 7. -/
def aeCexState : RaftState :=
  { baseState with
    currentTerm := 1
    logs := [⟨1, 6, []⟩, ⟨1, 7, []⟩]
    commitIndex := 5
    lastApplied := 5
    lastSnapshotIncludeIndex := 5
    lastSnapshotIncludeTerm := 1 }

/-- A same-term AppendEntries whose `prevLogIndex` lies below the snapshot
boundary of `aeCexState`. -/
def aeCexArgs : AppendEntriesArgs :=
  ⟨1, 0, 3, 1, [], 5⟩

/-- A same-term AppendEntries extending `aeWitState` by one entry. -/
def aeWitArgs : AppendEntriesArgs :=
  ⟨1, 0, 1, 1, [⟨1, 2, [20]⟩], 2⟩

/-- A follower at term 1 with a single entry at index 1. -/
def aeWitState : RaftState :=
  { baseState with
    currentTerm := 1
    logs := [⟨1, 1, [10]⟩] }

/-- A node at term 1 with two committed-to-be entries, used to exercise
snapshot installation and log truncation. -/
def c4State : RaftState :=
  { baseState with
    currentTerm := 1
    logs := [⟨1, 1, []⟩, ⟨1, 2, []⟩] }

/-- A world whose durable storage agrees with the freshly initialized node. -/
def w0 : World :=
  ⟨baseState, extractPersist baseState⟩

/-- A demonstration schedule: an election, a client command, a crash with
recovery, then a higher-term RequestVote. -/
def demoOps : List NodeOp :=
  [NodeOp.opDoElection, NodeOp.opStart [7], NodeOp.opRecover,
   NodeOp.rpcRequestVote ⟨5, 2, 0, 0⟩]

/-- Taking the length of the left summand of an append returns it. -/
theorem take_length_append (l r : List Int) : (l ++ r).take l.length = l := by
  induction l with
  | nil => simp
  | cons x xs ih => simp [ih]

/-- Dropping the length of the left summand of an append returns the right. -/
theorem drop_length_append (l r : List Int) : (l ++ r).drop l.length = r := by
  induction l with
  | nil => simp
  | cons x xs ih => simp [ih]

/-- `decodeCommand` undoes the length-prefixed command encoding. -/
theorem decodeCommand_encode (cmd rest : List Int) :
    decodeCommand cmd.length (cmd ++ rest) = some (cmd, rest) := by
  unfold decodeCommand
  rw [if_pos (by simp)]
  rw [take_length_append, drop_length_append]

/-- `decodeEntry` undoes `encodeEntry`. -/
theorem decodeEntry_encode (e : LogEntry) (rest : List Int) :
    decodeEntry (encodeEntry e ++ rest) = some (e, rest) := by
  unfold decodeEntry encodeEntry
  simp only [List.cons_append]
  rw [Int.toNat_natCast, decodeCommand_encode]

/-- `decodeEntries` undoes `encodeEntries`. -/
theorem decodeEntries_encode (l : List LogEntry) (rest : List Int) :
    decodeEntries l.length (encodeEntries l ++ rest) = some (l, rest) := by
  induction l generalizing rest with
  | nil => rfl
  | cons e es ih =>
    simp only [List.length_cons, encodeEntries, List.append_assoc]
    unfold decodeEntries
    simp [decodeEntry_encode, ih]

/-- Claim C6: deserializing the bytes produced by the state serializer
restores exactly the persisted tuple `(currentTerm, votedFor,
lastSnapshotIncludeIndex, lastSnapshotIncludeTerm, log[])`: `readPersist`
after `persistData` is the identity on the five fields. -/
theorem readPersist_persistData (p : PersistentState) :
    readPersist (persistData p) = some p := by
  have h := decodeEntries_encode p.logs []
  rw [List.append_nil] at h
  simp only [persistData, readPersist, Int.toNat_natCast, h]

/-- Claim C10: `BoostPersistRaftNode::serialize` depends only on the five
raft fields; two records agreeing on them produce identical archives no
matter what `umap` holds. -/
theorem serialize_ignores_umap (a b : BoostPersistRaftNode)
    (h1 : a.m_currentTerm = b.m_currentTerm)
    (h2 : a.m_votedFor = b.m_votedFor)
    (h3 : a.m_lastSnapshotIncludeIndex = b.m_lastSnapshotIncludeIndex)
    (h4 : a.m_lastSnapshotIncludeTerm = b.m_lastSnapshotIncludeTerm)
    (h5 : a.m_logs = b.m_logs) :
    serializeBoostNode a = serializeBoostNode b := by
  unfold serializeBoostNode
  rw [h1, h2, h3, h4, h5]

/-- Witness for C10: two records identical on the five raft fields but with
different `umap` contents serialize to the same archive. -/
theorem serialize_ignores_umap_witness :
    (⟨1, 2, 3, 4, [[5]], []⟩ : BoostPersistRaftNode).umap ≠
      (⟨1, 2, 3, 4, [[5]], [([6], 7)]⟩ : BoostPersistRaftNode).umap ∧
    serializeBoostNode ⟨1, 2, 3, 4, [[5]], []⟩ =
      serializeBoostNode ⟨1, 2, 3, 4, [[5]], [([6], 7)]⟩ :=
  ⟨by decide, serialize_ignores_umap _ _ rfl rfl rfl rfl rfl⟩

/-- Claim C9: `executeOp` called with DELETE performs no Clerk operation and
returns true on its first loop iteration, for every key, value, opId and
failure pattern of the Clerk; and `userTask` draws DELETE with probability
one third. -/
theorem executeOp_DELETE_noop (key value : List Int) (opId : Nat) (throws : Nat → Bool) :
    executeOp OpType.DELETE key value opId throws = ⟨true, 1, []⟩ ∧
    ((Finset.univ.filter (fun r : Fin 3 => drawOp r = OpType.DELETE)).card : ℚ) /
      ((Finset.univ : Finset (Fin 3)).card : ℚ) = 1 / 3 := by
  constructor
  · rfl
  · rw [show (Finset.univ.filter (fun r : Fin 3 => drawOp r = OpType.DELETE)).card = 1
        from by decide]
    rw [show (Finset.univ : Finset (Fin 3)).card = 3 from by decide]
    norm_num

/-- Claim C1: for a leader, the commit-advancement step computes the median
`M[⌊N/2⌋]` of `sort({matchIndex[p]} ∪ {lastLogIndex(self)})` and moves
`commitIndex` there exactly when the term recorded at that index is the
current term; otherwise `commitIndex` is unchanged. -/
theorem leaderUpdateCommitIndex_median (s : RaftState) (h : s.status = Status.Leader) :
    (getLogTermFromLogIndex s (medianMatchIndex s) = s.currentTerm →
      (leaderUpdateCommitIndex s).commitIndex = medianMatchIndex s) ∧
    (getLogTermFromLogIndex s (medianMatchIndex s) ≠ s.currentTerm →
      (leaderUpdateCommitIndex s).commitIndex = s.commitIndex) := by
  unfold leaderUpdateCommitIndex
  rw [if_pos h]
  constructor <;> intro hc <;> simp [hc]

/-- Witness for C1: on `c1State` the median is 1, its term is the current
term, and commit advances to 1. -/
theorem leaderUpdateCommitIndex_median_witness :
    (leaderUpdateCommitIndex c1State).commitIndex = medianMatchIndex c1State :=
  (leaderUpdateCommitIndex_median c1State (by decide)).1 (by decide)

/-- Claim C4: `CondInstallSnapshot(lastTerm, lastIndex, blob)` returns false
and leaves the node unchanged when `lastIndex ≤ commitIndex`; when
`lastIndex > commitIndex` it discards the log prefix up to `lastIndex`
(the whole log when no entry matches `(lastTerm, lastIndex)`), sets
`commitIndex = lastApplied = lastIndex`, persists, and returns true. -/
theorem CondInstallSnapshot_spec (s : RaftState) (t i : Int) :
    (i ≤ s.commitIndex → CondInstallSnapshot s t i = ⟨false, s, false⟩) ∧
    (s.commitIndex < i →
      (CondInstallSnapshot s t i).accepted = true ∧
      (CondInstallSnapshot s t i).persisted = true ∧
      (CondInstallSnapshot s t i).state.commitIndex = i ∧
      (CondInstallSnapshot s t i).state.lastApplied = i ∧
      (CondInstallSnapshot s t i).state.lastSnapshotIncludeIndex = i ∧
      (CondInstallSnapshot s t i).state.lastSnapshotIncludeTerm = t ∧
      (CondInstallSnapshot s t i).state.logs =
        (if matchLog s i t = true then
          s.logs.drop (i - s.lastSnapshotIncludeIndex).toNat
        else [])) := by
  constructor
  · intro hc
    unfold CondInstallSnapshot
    rw [if_pos hc]
  · intro hc
    unfold CondInstallSnapshot
    rw [if_neg (by omega)]
    simp

/-- Witness for C4: installing the snapshot `(term 1, index 2)` on `c4State`
is accepted, discards the whole covered log, and moves both cursors to 2. -/
theorem CondInstallSnapshot_spec_witness :
    (CondInstallSnapshot c4State 1 2).accepted = true ∧
    (CondInstallSnapshot c4State 1 2).state.commitIndex = 2 :=
  ⟨((CondInstallSnapshot_spec c4State 1 2).2 (by decide)).1,
   ((CondInstallSnapshot_spec c4State 1 2).2 (by decide)).2.2.1⟩

/-- Claim C5: `Start(command)` on a non-leader returns `isLeader=false` with
index `-1` and changes no state; on a leader it appends an entry carrying
`currentTerm` and the next log index with the given command, persists, and
returns that index and term. -/
theorem Start_spec (s : RaftState) (c : List Int) :
    (s.status ≠ Status.Leader → Start s c = ⟨-1, -1, false, s, false⟩) ∧
    (s.status = Status.Leader →
      (Start s c).newLogIndex = getLastLogIndex s + 1 ∧
      (Start s c).newLogTerm = s.currentTerm ∧
      (Start s c).isLeader = true ∧
      (Start s c).persisted = true ∧
      (Start s c).state.logs =
        s.logs ++ [⟨s.currentTerm, getLastLogIndex s + 1, c⟩]) := by
  constructor
  · intro hs
    unfold Start
    rw [if_neg hs]
  · intro hs
    unfold Start
    rw [if_pos hs]
    simp

/-- Witness for C5: `Start` on the leader `c1State` assigns index 2 at the
current term 1. -/
theorem Start_spec_witness :
    (Start c1State [9]).newLogIndex = getLastLogIndex c1State + 1 ∧
    (Start c1State [9]).isLeader = true :=
  ⟨((Start_spec c1State [9]).2 (by decide)).1,
   ((Start_spec c1State [9]).2 (by decide)).2.2.1⟩

/-- Claim C8: `Snapshot(index, blob)` with `index ≤ lastSnapshotIncludeIndex`
is ignored, every field of the state unchanged and nothing written; with
`index > lastSnapshotIncludeIndex` the log is truncated so the sentinel
becomes `(term_of(index), index)` and state plus snapshot are written
atomically. -/
theorem Snapshot_spec (s : RaftState) (index : Int) :
    (index ≤ s.lastSnapshotIncludeIndex → Snapshot s index = ⟨s, false⟩) ∧
    (s.lastSnapshotIncludeIndex < index →
      (Snapshot s index).state.lastSnapshotIncludeIndex = index ∧
      (Snapshot s index).state.lastSnapshotIncludeTerm = getLogTermFromLogIndex s index ∧
      (Snapshot s index).state.logs =
        s.logs.drop (index - s.lastSnapshotIncludeIndex).toNat ∧
      (Snapshot s index).savedStateAndSnapshot = true) := by
  constructor
  · intro hc
    unfold Snapshot
    rw [if_pos hc]
  · intro hc
    unfold Snapshot
    rw [if_neg (by omega)]
    simp

/-- Witness for C8: snapshotting `c4State` at index 1 truncates the first
entry and records the sentinel `(term 1, index 1)`. -/
theorem Snapshot_spec_witness :
    (Snapshot c4State 1).state.lastSnapshotIncludeIndex = 1 ∧
    (Snapshot c4State 1).state.logs =
      c4State.logs.drop ((1 : Int) - c4State.lastSnapshotIncludeIndex).toNat :=
  ⟨((Snapshot_spec c4State 1).2 (by decide)).1,
   ((Snapshot_spec c4State 1).2 (by decide)).2.2.1⟩

/-- Counterexample to claim C2 as stated: a higher-term RequestVote from
candidate 2 reaching a node whose `votedFor` is still 0 is granted, because
the higher-term rule resets `votedFor` to NONE before the check — yet the
claim's condition on the handler-entry `votedFor` is false. -/
theorem requestVoteClaim_false : ¬ requestVoteClaim rvCexState rvCexArgs := by
  unfold requestVoteClaim
  decide

/-- Claim C2 (amended): the vote is granted iff `args.term ≥ currentTerm`,
`votedFor` is NONE or the candidate **or `args.term > currentTerm` (which
resets `votedFor` to NONE before the check)**, and the candidate's log is
up-to-date; every grant persists state and resets the election timer. -/
theorem RequestVote_grant (s : RaftState) (a : RequestVoteArgs) :
    ((RequestVote s a).reply.voteGranted = true ↔
      (s.currentTerm ≤ a.term ∧
       (s.currentTerm < a.term ∨ s.votedFor = NONE ∨ s.votedFor = a.candidateId) ∧
       UpToDate s a.lastLogIndex a.lastLogTerm = true)) ∧
    ((RequestVote s a).reply.voteGranted = true →
      (RequestVote s a).persisted = true ∧ (RequestVote s a).resetElectionTimer = true) := by
  unfold RequestVote stepDownIfHigher
  by_cases h1 : a.term < s.currentTerm
  · simp only [if_pos h1]
    constructor
    · constructor
      · intro hg
        simp at hg
      · rintro ⟨hle, -, -⟩
        exact absurd hle (by omega)
    · intro hg
      simp at hg
  · simp only [if_neg h1]
    by_cases h2 : s.currentTerm < a.term
    · simp only [if_pos h2]
      by_cases h3 : UpToDate s a.lastLogIndex a.lastLogTerm = true
      · simp [h3]
        omega
      · simp [h3]
    · simp only [if_neg h2]
      by_cases h3 : (s.votedFor = NONE ∨ s.votedFor = a.candidateId) ∧
          UpToDate s a.lastLogIndex a.lastLogTerm = true
      · simp [h3, h3.1, h3.2]
        omega
      · simp [h3]
        intro hle hvf
        rcases Bool.eq_false_or_eq_true (UpToDate s a.lastLogIndex a.lastLogTerm) with h4 | h4
        · exact absurd ⟨hvf.resolve_left (by omega), h4⟩ h3
        · exact h4

/-- Witness for C2 (amended): a fresh node grants a higher-term request. -/
theorem RequestVote_grant_witness :
    (RequestVote baseState ⟨1, 2, 0, 0⟩).reply.voteGranted = true :=
  (RequestVote_grant baseState ⟨1, 2, 0, 0⟩).1.mpr (by decide)

/-- Counterexample to claim C3 as stated: with snapshot boundary at index 5
and live entries 6..7, a same-term request with `prevLogIndex = 3` (below the
boundary) falls under the claim's conflict branch (no local term at index 3),
whose hint would be `conflictIndex = lastLogIndex + 1 = 8`; the handler
instead answers with the snapshot catch-up hint `conflictIndex = 6`. -/
theorem appendEntriesClaim_false : ¬ appendEntriesClaim aeCexState aeCexArgs := by
  unfold appendEntriesClaim
  decide

/-- Claim C3 (amended): as stated, **except that a `prevLogIndex` below the
snapshot boundary is refused with the catch-up hint `conflictTerm = NONE`,
`conflictIndex = lastSnapshotIncludeIndex + 1` instead of the generic
conflict hint**: stale terms are refused with no state change; at or above
the boundary a missing or term-mismatched `prevLogIndex` yields the conflict
hint `(term at prevLogIndex if present else NONE, first index with that term
else lastLogIndex+1)`; otherwise the conflicting suffix is truncated, the
remaining entries appended, state persisted, and
`commitIndex = min(leaderCommit, index of last new entry)`. -/
theorem AppendEntries1_spec (s : RaftState) (a : AppendEntriesArgs) :
    (a.term < s.currentTerm →
      (AppendEntries1 s a).reply.term = s.currentTerm ∧
      (AppendEntries1 s a).reply.success = false ∧
      (AppendEntries1 s a).state = s) ∧
    (s.currentTerm ≤ a.term → a.prevLogIndex < s.lastSnapshotIncludeIndex →
      (AppendEntries1 s a).reply.success = false ∧
      (AppendEntries1 s a).reply.conflictTerm = NONE ∧
      (AppendEntries1 s a).reply.conflictIndex = s.lastSnapshotIncludeIndex + 1 ∧
      (AppendEntries1 s a).state.logs = s.logs) ∧
    (s.currentTerm ≤ a.term → s.lastSnapshotIncludeIndex ≤ a.prevLogIndex →
      (getLastLogIndex s < a.prevLogIndex ∨ termAt s a.prevLogIndex ≠ some a.prevLogTerm) →
      (AppendEntries1 s a).reply.success = false ∧
      (AppendEntries1 s a).reply.conflictTerm = getLogTermFromLogIndex s a.prevLogIndex ∧
      (AppendEntries1 s a).reply.conflictIndex =
        (firstIndexWithTerm s (getLogTermFromLogIndex s a.prevLogIndex)).getD
          (getLastLogIndex s + 1)) ∧
    (s.currentTerm ≤ a.term → s.lastSnapshotIncludeIndex ≤ a.prevLogIndex →
      ¬ (getLastLogIndex s < a.prevLogIndex ∨ termAt s a.prevLogIndex ≠ some a.prevLogTerm) →
      (AppendEntries1 s a).state.logs = truncatedMerge s a ∧
      (AppendEntries1 s a).persisted = true ∧
      (AppendEntries1 s a).state.commitIndex =
        min a.leaderCommit (a.prevLogIndex + (a.entries.length : Int))) := by
  refine ⟨?_, ?_, ?_, ?_⟩
  · intro h
    unfold AppendEntries1
    rw [if_pos h]
    exact ⟨rfl, rfl, rfl⟩
  · intro h hlt
    unfold AppendEntries1 stepDownIfHigher
    rw [if_neg (by omega), if_pos hlt]
    by_cases hsd : s.currentTerm < a.term <;> simp [hsd]
  · intro h hge hconf
    unfold AppendEntries1 stepDownIfHigher
    rw [if_neg (by omega), if_neg (by omega), if_pos hconf]
    by_cases hsd : s.currentTerm < a.term <;> simp [hsd]
  · intro h hge hconf
    unfold AppendEntries1 stepDownIfHigher
    rw [if_neg (by omega), if_neg (by omega), if_neg hconf]
    by_cases hsd : s.currentTerm < a.term <;> simp [hsd]

/-- Witness for C3 (amended): a same-term append extending `aeWitState`
lands in the accept branch, merges the entry and persists. -/
theorem AppendEntries1_spec_witness :
    (AppendEntries1 aeWitState aeWitArgs).state.logs = truncatedMerge aeWitState aeWitArgs ∧
    (AppendEntries1 aeWitState aeWitArgs).persisted = true :=
  ⟨((AppendEntries1_spec aeWitState aeWitArgs).2.2.2 (by decide) (by decide) (by decide)).1,
   ((AppendEntries1_spec aeWitState aeWitArgs).2.2.2 (by decide) (by decide) (by decide)).2.1⟩

/-- No single operation lowers `currentTerm`, and an operation that does not
persist leaves `currentTerm` where it was. -/
theorem stepOp_term (op : NodeOp) (s : RaftState) :
    s.currentTerm ≤ (stepOp op s).1.currentTerm ∧
    ((stepOp op s).2 = false → (stepOp op s).1.currentTerm = s.currentTerm) := by
  cases op <;>
    simp only [stepOp, RequestVote, AppendEntries1, InstallSnapshot, CondInstallSnapshot,
      Start, Snapshot, leaderUpdateCommitIndex, doElection, stepDownIfHigher] <;>
    first
    | (split_ifs <;> simp_all <;> omega)
    | (constructor <;> simp <;> omega)
    | (constructor <;> simp)

/-- Installing an outcome that respects the term keeps the world's durable
term equal to the node's term and never lowers the node's term. -/
theorem commitDurable_term (w : World) (r : RaftState × Bool)
    (h : w.durable.currentTerm = w.node.currentTerm)
    (hmono : w.node.currentTerm ≤ r.1.currentTerm)
    (hflag : r.2 = false → r.1.currentTerm = w.node.currentTerm) :
    w.node.currentTerm ≤ (commitDurable w r).node.currentTerm ∧
    (commitDurable w r).durable.currentTerm = (commitDurable w r).node.currentTerm := by
  refine ⟨hmono, ?_⟩
  rcases r with ⟨t, b⟩
  cases b
  · simpa [commitDurable, h] using (hflag rfl).symm
  · simp [commitDurable, extractPersist]

/-- One world step never lowers the node's `currentTerm` and preserves the
agreement between durable and volatile terms. -/
theorem stepWorld_term (op : NodeOp) (w : World)
    (h : w.durable.currentTerm = w.node.currentTerm) :
    w.node.currentTerm ≤ (stepWorld op w).node.currentTerm ∧
    (stepWorld op w).durable.currentTerm = (stepWorld op w).node.currentTerm := by
  cases op
  case opRecover => constructor <;> simp [stepWorld, rehydrate, h]
  all_goals
    exact commitDurable_term w _ h (stepOp_term _ w.node).1 (stepOp_term _ w.node).2

/-- Claim C7: across every sequence of operations — RPC handling, elections,
Start, snapshotting, commit advancement and crash recovery — a node's
`currentTerm` never decreases, provided durable storage initially agrees
with the node (as it does from `init` onward). -/
theorem currentTerm_monotone (ops : List NodeOp) (w : World)
    (h : w.durable.currentTerm = w.node.currentTerm) :
    w.node.currentTerm ≤ (runOps ops w).node.currentTerm := by
  induction ops generalizing w with
  | nil => exact le_refl _
  | cons op rest ih =>
    have hs := stepWorld_term op w h
    exact le_trans hs.1 (ih (stepWorld op w) hs.2)

/-- Witness for C7: the demonstration schedule (election, Start, crash with
recovery, higher-term RequestVote) starting from a fresh world never lowers
the term. -/
theorem currentTerm_monotone_witness :
    w0.durable.currentTerm = w0.node.currentTerm ∧
    w0.node.currentTerm ≤ (runOps demoOps w0).node.currentTerm :=
  ⟨rfl, currentTerm_monotone demoOps w0 rfl⟩

end KVRaft
